import Mathlib

/-!
Verification of the lazy Demand-CRD watcher (`internal/crd/demand_informer.go`)
and the stale-demand garbage collector (`extender` package, `StartDemandGC`)
of the k8s-spark-scheduler repository.

The watcher is embedded as an explicit state machine: the Go struct
`LazyDemandInformer` keeps a `ready` channel (observable only through whether
it has been closed), an `informer` field (nil until published), plus clients
and a lock that carry no observable state of their own.  External
collaborators — the discovery check `CheckCRDExists` and the per-attempt cache
synchronization `WaitForCacheSync` — are abstracted into an environment that
supplies their results for each poll tick.  The `Run` polling loop is embedded
as a step function over a list of scheduler events (a context-done signal or a
ticker tick carrying that tick's environment).
-/

namespace SparkScheduler

/-- Abstract stand-in for the `v1alpha1.DemandInformer` interface value
produced by `informerFactory.Scaler().V1alpha1().Demands()`. -/
structure DemandInformer where
  id : Nat
deriving DecidableEq, Repr

/-- The (single) informer value produced by the shared informer factory held
by the `LazyDemandInformer`. -/
def demandInformerHandle : DemandInformer := ⟨0⟩

/-- Observable state of the Go struct `LazyDemandInformer`
(demand_informer.go lines 40-47): `readyClosed` records whether the `ready`
channel has been closed; `informer` is the published informer field, `none`
standing for the Go nil interface value.  The clients, the factory and the
`sync.RWMutex` carry no observable state in this embedding. -/
structure LDIState where
  readyClosed : Bool
  informer : Option DemandInformer
deriving DecidableEq, Repr

/-- `NewLazyDemandInformer` (lines 49-59): the `ready` channel is freshly
made (hence open) and the `informer` field has its zero value, nil. -/
def NewLazyDemandInformer : LDIState :=
  { readyClosed := false, informer := none }

/-- `Informer()` (lines 62-66): returns the informer field under the read
lock; nil (`none`) when not yet initialized. -/
def Informer (s : LDIState) : Option DemandInformer := s.informer

/-- `Ready()` (lines 69-71) returns the `ready` channel; its only observable
property is whether it has been closed. -/
def Ready (s : LDIState) : Bool := s.readyClosed

/-- `informerSyncRetryCount = 5` (line 33). -/
def informerSyncRetryCount : Nat := 5

/-- `informerSyncTimeout = 2 * time.Second` (line 34), in milliseconds. -/
def informerSyncTimeoutMillis : Nat := 2000

/-- `informerSyncRetryInitialBackoff = 500 * time.Millisecond` (line 35),
in milliseconds. -/
def informerSyncRetryInitialBackoffMillis : Nat := 500

/-- The ticker period of `Run` (line 76): `time.Minute`, in milliseconds. -/
def tickIntervalMillis : Nat := 60000

/-- Index of the first successful synchronization attempt among the first
`maxAttempts` attempts, where `attemptOk i` is the outcome of the i-th
`WaitForCacheSync` call (each internally bounded by the 2s per-attempt
timeout context). -/
def firstSuccessIdx (attemptOk : Nat → Bool) (maxAttempts : Nat) : Option Nat :=
  (List.range maxAttempts).find? attemptOk

/-- Whether `retry.Do` returns a nil error: some attempt among the first
`maxAttempts` succeeds. -/
def retrySucceeds (attemptOk : Nat → Bool) (maxAttempts : Nat) : Bool :=
  (firstSuccessIdx attemptOk maxAttempts).isSome

/-- Modelled from the spec: `retry.Do` (the external `palantir/pkg/retry`
collaborator, whose source is not part of this repository) runs the attempt
function until the first success, up to the configured maximum attempt
count; this is the number of attempts it makes. -/
def retryAttemptsMade (attemptOk : Nat → Bool) (maxAttempts : Nat) : Nat :=
  match firstSuccessIdx attemptOk maxAttempts with
  | some i => i + 1
  | none => maxAttempts

/-- Modelled from the spec: the exponential backoff schedule of the external
retry collaborator — one wait between consecutive attempts, starting at the
configured initial backoff and doubling each time. -/
def expBackoffs (initialBackoff attemptsMade : Nat) : List Nat :=
  (List.range (attemptsMade - 1)).map (fun i => initialBackoff * 2 ^ i)

/-- Result of one `initializeInformer` invocation: the returned Go error
(`Except.error` for non-nil), the state of the `LazyDemandInformer` after the
call, and — as observable instrumentation of the run — the number of
synchronization attempts made and the backoff waits performed between them. -/
structure InitResult where
  result : Except Unit Unit
  state : LDIState
  attempts : Nat
  backoffs : List Nat
deriving Repr

/-- `initializeInformer` (lines 108-129): under the write lock, obtain the
demand informer from the factory, start the factory, and retry cache
synchronization with `retry.Do` (max 5 attempts, initial backoff 500ms, each
attempt a `WaitForCacheSync` bounded by a 2s timeout context).  On retry
failure the error is returned and the `informer` field is left untouched;
on success the informer is published.  Note the `ready` channel is not
closed on any path. -/
def initializeInformer (s : LDIState) (syncOk : Nat → Bool) : InitResult :=
  if retrySucceeds syncOk informerSyncRetryCount then
    { result := Except.ok ()
      state := { s with informer := some demandInformerHandle }
      attempts := retryAttemptsMade syncOk informerSyncRetryCount
      backoffs := expBackoffs informerSyncRetryInitialBackoffMillis
        (retryAttemptsMade syncOk informerSyncRetryCount) }
  else
    { result := Except.error ()
      state := s
      attempts := retryAttemptsMade syncOk informerSyncRetryCount
      backoffs := expBackoffs informerSyncRetryInitialBackoffMillis
        (retryAttemptsMade syncOk informerSyncRetryCount) }

/-- Environment of one poll tick: the result of the external discovery check
`CheckCRDExists` (only its `ready` flag and error are used by the code,
line 92), and the outcomes of the successive `WaitForCacheSync` attempts
should `initializeInformer` run on this tick. -/
structure TickEnv where
  crdCheck : Except Unit Bool
  syncOk : Nat → Bool

/-- Result of one `checkDemandCRDExists` call: the returned boolean, the
state after the call, and the number of synchronization attempts made. -/
structure CheckResult where
  ready : Bool
  state : LDIState
  syncAttempts : Nat
deriving Repr

/-- `checkDemandCRDExists` (lines 91-106): a discovery error is logged and
yields `false` with nothing else done; if the CRD is not ready, return
`false`; if it is ready, run `initializeInformer`, returning `false` on its
error and `true` (= `ready`) on its success. -/
def checkDemandCRDExists (s : LDIState) (env : TickEnv) : CheckResult :=
  match env.crdCheck with
  | Except.error _ => { ready := false, state := s, syncAttempts := 0 }
  | Except.ok ready =>
    if ready then
      match (initializeInformer s env.syncOk).result with
      | Except.error _ =>
        { ready := false
          state := (initializeInformer s env.syncOk).state
          syncAttempts := (initializeInformer s env.syncOk).attempts }
      | Except.ok _ =>
        { ready := true
          state := (initializeInformer s env.syncOk).state
          syncAttempts := (initializeInformer s env.syncOk).attempts }
    else { ready := false, state := s, syncAttempts := 0 }

/-- One event consumed by the `select` of the `Run` loop (lines 78-86):
either the context's done channel fires, or the ticker fires and that tick's
external results are given by its environment. -/
inductive RunEvent where
  | done : RunEvent
  | tick : TickEnv → RunEvent

/-- `Run` (lines 75-89) as a step function over the scheduled events: on
`done` return nil; on a tick run `checkDemandCRDExists`, returning nil if it
reports `true` and looping otherwise.  `none` means the loop is still
running after consuming every scheduled event.  The returned Go error is
`Option Unit` (`none` = nil). -/
def runSteps : LDIState → List RunEvent → Option (Option Unit × LDIState)
  | _, [] => none
  | s, RunEvent.done :: _ => some (none, s)
  | s, RunEvent.tick env :: rest =>
    if (checkDemandCRDExists s env).ready then
      some (none, (checkDemandCRDExists s env).state)
    else
      runSteps (checkDemandCRDExists s env).state rest

/-- Number of `checkDemandCRDExists` calls `Run` makes while consuming the
given events. -/
def checksMade : LDIState → List RunEvent → Nat
  | _, [] => 0
  | _, RunEvent.done :: _ => 0
  | s, RunEvent.tick env :: rest =>
    if (checkDemandCRDExists s env).ready then 1
    else 1 + checksMade (checkDemandCRDExists s env).state rest

/-- Models Go `time.NewTicker` semantics: a ticker created at time 0 with
period `tickIntervalMillis` fires at `tickIntervalMillis`,
`2 * tickIntervalMillis`, …, never immediately; this is how many ticks have
fired by time `t`. -/
def ticksFiredBy (t : Nat) : Nat := t / tickIntervalMillis

/-- The events `Run` consumes when the context is cancelled at time
`cancelAt`: the ticks that fired before cancellation (the i-th tick seeing
environment `envs i`), followed by the done signal. -/
def eventsUpToCancel (envs : Nat → TickEnv) (cancelAt : Nat) : List RunEvent :=
  ((List.range (ticksFiredBy cancelAt)).map (fun i => RunEvent.tick (envs i)))
    ++ [RunEvent.done]

/-- A pod as observed by the reclaimer: identity (namespace, name), node
assignment (empty string = not scheduled), and whether it carries the
spark-scheduler marker. -/
structure Pod where
  ns : String
  name : String
  nodeName : String
  managed : Bool
deriving DecidableEq, Repr

/-- Modelled from the spec: `utils.IsSparkSchedulerPod` (in
`internal/common/utils`, not part of the given sources) is the filter
predicate admitting only pods belonging to this scheduling system,
identified by a marker set by the scheduler on pods it manages. -/
def IsSparkSchedulerPod (p : Pod) : Bool := p.managed

/-- Modelled from the spec: a pod is scheduled when its node assignment is
present. -/
def isPodScheduled (p : Pod) : Bool := !(p.nodeName == "")

/-- A recorded call to `DeleteDemandIfExists`: the pod identity the demand
key is built from, and the source tag identifying the caller. -/
structure DeleteCall where
  ns : String
  name : String
  tag : String
deriving DecidableEq, Repr

/-- Modelled from the spec: `DeleteDemandIfExists(ctx, cache, pod, tag)` (in
the extender package, not part of the given sources) idempotently deletes
the demand for the pod; here it is observed as the single recorded call it
makes. -/
def DeleteDemandIfExists (p : Pod) (tag : String) : List DeleteCall :=
  [{ ns := p.ns, name := p.name, tag := tag }]

/-- Modelled from the spec: `utils.OnPodScheduled(ctx, fn)` (in
`internal/common/utils`, not part of the given sources) wraps an update
handler that invokes `fn` on the new pod exactly when the transition is
"was not scheduled, now is scheduled". -/
def OnPodScheduled (fn : Pod → List DeleteCall) (oldPod newPod : Pod) :
    List DeleteCall :=
  if !(isPodScheduled oldPod) && isPodScheduled newPod then fn newPod else []

/-- A pod lifecycle event delivered by the pod informer. -/
inductive PodEvent where
  | add : Pod → PodEvent
  | update : Pod → Pod → PodEvent
  | delete : Pod → PodEvent

/-- The event handler registered by `StartDemandGC` (part_000 lines 35-51):
a client-go `FilteringResourceEventHandler` with `FilterFunc =
utils.IsSparkSchedulerPod` around a `ResourceEventHandlerFuncs` whose only
member is `UpdateFunc = utils.OnPodScheduled(ctx, fn)` with `fn` calling
`DeleteDemandIfExists(dgc.ctx, dgc.demandCache, pod, "DemandGC")`.
Per client-go semantics, the filtering wrapper forwards an update to the
inner `OnUpdate` only when both old and new objects pass the filter (when
only one passes it rewrites the event to an add or a delete, which the inner
handler drops since `AddFunc` and `DeleteFunc` are unset); add and delete
events are likewise dropped by the inner handler. -/
def demandGCHandleEvent : PodEvent → List DeleteCall
  | PodEvent.add _ => []
  | PodEvent.delete _ => []
  | PodEvent.update oldPod newPod =>
    if IsSparkSchedulerPod newPod && IsSparkSchedulerPod oldPod then
      OnPodScheduled (fun p => DeleteDemandIfExists p "DemandGC") oldPod newPod
    else []

/-! ### Concrete environments used by witnesses -/

/-- A tick on which discovery reports the CRD ready and every sync attempt
succeeds. -/
def envSyncAlways : TickEnv := ⟨Except.ok true, fun _ => true⟩

/-- A tick on which discovery reports the CRD ready but every sync attempt
fails. -/
def envSyncNever : TickEnv := ⟨Except.ok true, fun _ => false⟩

/-- A tick on which the discovery query itself errors. -/
def envDiscErr : TickEnv := ⟨Except.error (), fun _ => false⟩

/-- A tick on which discovery reports the CRD absent, without error. -/
def envAbsent : TickEnv := ⟨Except.ok false, fun _ => false⟩

/-! ### Helper lemmas -/

theorem firstSuccessIdx_none (f : Nat → Bool) (n : Nat) (h : ∀ i, f i = false) :
    firstSuccessIdx f n = none := by
  unfold firstSuccessIdx
  rw [List.find?_eq_none]
  intro x _
  simp [h]

theorem check_not_ready_state (s : LDIState) (env : TickEnv)
    (h : (checkDemandCRDExists s env).ready = false) :
    (checkDemandCRDExists s env).state = s := by
  rcases hc : env.crdCheck with e | rdy
  · simp [checkDemandCRDExists, hc]
  · cases rdy
    · simp [checkDemandCRDExists, hc]
    · cases hr : retrySucceeds env.syncOk informerSyncRetryCount
      · simp [checkDemandCRDExists, hc, initializeInformer, hr]
      · exfalso
        simp [checkDemandCRDExists, hc, initializeInformer, hr] at h

theorem check_ready_state (s : LDIState) (env : TickEnv)
    (h : (checkDemandCRDExists s env).ready = true) :
    (checkDemandCRDExists s env).state =
      { s with informer := some demandInformerHandle } := by
  rcases hc : env.crdCheck with e | rdy
  · simp [checkDemandCRDExists, hc] at h
  · cases rdy
    · simp [checkDemandCRDExists, hc] at h
    · cases hr : retrySucceeds env.syncOk informerSyncRetryCount
      · exfalso
        simp [checkDemandCRDExists, hc, initializeInformer, hr] at h
      · simp [checkDemandCRDExists, hc, initializeInformer, hr]

theorem runSteps_ret_none (evs : List RunEvent) :
    ∀ (s : LDIState) (ret : Option Unit) (s' : LDIState),
      runSteps s evs = some (ret, s') → ret = none := by
  induction evs with
  | nil =>
    intro s ret s' h
    simp [runSteps] at h
  | cons e rest ih =>
    intro s ret s' h
    cases e with
    | done =>
      simp [runSteps] at h
      exact h.1.symm
    | tick env =>
      by_cases hr : (checkDemandCRDExists s env).ready = true
      · simp [runSteps, hr] at h
        exact h.1.symm
      · simp only [runSteps] at h
        rw [if_neg hr] at h
        exact ih _ ret s' h

/-! ### Claim theorems -/

/-- C1: contrary to the claim — and to the doc comment of `Ready()`, which
says the returned channel "will be closed when the informer is initialized"
— no code path ever closes the ready channel: on a run whose single tick
reports the CRD ready and whose first cache-sync attempt succeeds, `Run`
returns nil with the informer handle published, yet the readiness channel
is still open. -/
theorem ready_never_closed_even_on_success :
    ∃ s, runSteps NewLazyDemandInformer [RunEvent.tick envSyncAlways] =
        some (none, s) ∧
      Informer s = some demandInformerHandle ∧ Ready s = false :=
  ⟨{ readyClosed := false, informer := some demandInformerHandle },
    rfl, rfl, rfl⟩

/-- C2: the informer handle is nil until and only until a successful
`initializeInformer`: it is nil at construction; a tick whose check does not
report ready leaves the whole state (hence the handle) unchanged; a tick
whose check reports ready leaves the non-nil handle published; and a
published handle is never reset to nil by any later tick. -/
theorem informer_nil_until_ready :
    Informer NewLazyDemandInformer = none ∧
    (∀ s env, (checkDemandCRDExists s env).ready = false →
      (checkDemandCRDExists s env).state = s) ∧
    (∀ s env, (checkDemandCRDExists s env).ready = true →
      Informer (checkDemandCRDExists s env).state = some demandInformerHandle) ∧
    (∀ s env, Informer s ≠ none →
      Informer (checkDemandCRDExists s env).state ≠ none) := by
  refine ⟨rfl, check_not_ready_state, ?_, ?_⟩
  · intro s env h
    rw [check_ready_state s env h]
    rfl
  · intro s env h
    by_cases hr : (checkDemandCRDExists s env).ready = true
    · rw [check_ready_state s env hr]
      simp [Informer]
    · rw [check_not_ready_state s env (by simpa using hr)]
      exact h

/-- C2 witness: on a concrete successful tick from the initial state, the
published handle is observed. -/
theorem informer_nil_until_ready_witness :
    Informer (checkDemandCRDExists NewLazyDemandInformer envSyncAlways).state =
      some demandInformerHandle :=
  informer_nil_until_ready.2.2.1 NewLazyDemandInformer envSyncAlways rfl

/-- C3: `Run` terminates only on cancellation or on a tick whose check
succeeds, whichever comes first; the cancellation path returns the nil
error; and a tick on which checking or syncing fails does not terminate the
loop — the loop simply continues with the remaining events. -/
theorem run_terminates_only_on_cancel_or_success :
    (∀ s evs, runSteps s (RunEvent.done :: evs) = some (none, s)) ∧
    (∀ s env evs, (checkDemandCRDExists s env).ready = true →
      runSteps s (RunEvent.tick env :: evs) =
        some (none, (checkDemandCRDExists s env).state)) ∧
    (∀ s env evs, (checkDemandCRDExists s env).ready = false →
      runSteps s (RunEvent.tick env :: evs) =
        runSteps (checkDemandCRDExists s env).state evs) := by
  refine ⟨fun s evs => rfl, ?_, ?_⟩
  · intro s env evs h
    simp [runSteps, h]
  · intro s env evs h
    simp [runSteps, h]

/-- C3 witness: a concrete successful tick terminates the loop with a nil
error. -/
theorem run_terminates_only_on_cancel_or_success_witness :
    runSteps NewLazyDemandInformer [RunEvent.tick envSyncAlways] =
      some (none, (checkDemandCRDExists NewLazyDemandInformer envSyncAlways).state) :=
  run_terminates_only_on_cancel_or_success.2.1 NewLazyDemandInformer
    envSyncAlways [] rfl

/-- C4: with an always-failing synchronization predicate,
`initializeInformer` makes exactly `informerSyncRetryCount = 5` attempts —
each attempt's `WaitForCacheSync` bounded by the
`informerSyncTimeoutMillis = 2000` ms timeout context — with the
exponential backoff waits 500, 1000, 2000, 4000 ms between consecutive
attempts, and returns an error, so that a tick on which this happens
continues the outer polling loop instead of terminating it. -/
theorem sync_retry_schedule (s : LDIState) (syncOk : Nat → Bool)
    (h : ∀ i, syncOk i = false) :
    (initializeInformer s syncOk).result = Except.error () ∧
    (initializeInformer s syncOk).attempts = informerSyncRetryCount ∧
    informerSyncRetryCount = 5 ∧
    informerSyncTimeoutMillis = 2000 ∧
    (initializeInformer s syncOk).backoffs = [500, 1000, 2000, 4000] ∧
    (∀ rest, runSteps s (RunEvent.tick ⟨Except.ok true, syncOk⟩ :: rest) =
      runSteps s rest) := by
  have hf : firstSuccessIdx syncOk informerSyncRetryCount = none :=
    firstSuccessIdx_none syncOk informerSyncRetryCount h
  have hr : retrySucceeds syncOk informerSyncRetryCount = false := by
    simp [retrySucceeds, hf]
  have ha : retryAttemptsMade syncOk informerSyncRetryCount =
      informerSyncRetryCount := by
    simp [retryAttemptsMade, hf]
  refine ⟨?_, ?_, rfl, rfl, ?_, ?_⟩
  · simp [initializeInformer, hr]
  · simp [initializeInformer, hr, ha]
  · simp only [initializeInformer, hr, if_neg Bool.false_ne_true, ha]
    decide
  · intro rest
    have hready : (checkDemandCRDExists s ⟨Except.ok true, syncOk⟩).ready = false := by
      simp [checkDemandCRDExists, initializeInformer, hr]
    simp [runSteps, hready, check_not_ready_state s ⟨Except.ok true, syncOk⟩ hready]

/-- C4 witness: the concrete always-failing tick environment exhibits the
full schedule. -/
theorem sync_retry_schedule_witness :
    (initializeInformer NewLazyDemandInformer envSyncNever.syncOk).backoffs =
      [500, 1000, 2000, 4000] :=
  (sync_retry_schedule NewLazyDemandInformer envSyncNever.syncOk
    (fun _ => rfl)).2.2.2.2.1

/-- C5: the DemandGC handler issues exactly one delete call — carrying the
new pod's identity and the source tag "DemandGC" — precisely on update
events whose pods pass the spark-scheduler filter and whose transition is
"was not scheduled, now is scheduled"; add events, delete events, events for
unmanaged pods, and updates whose old pod already had a node assignment
issue zero delete calls. -/
theorem demandGC_deletes_iff_newly_scheduled :
    (∀ p, demandGCHandleEvent (PodEvent.add p) = []) ∧
    (∀ p, demandGCHandleEvent (PodEvent.delete p) = []) ∧
    (∀ oldPod newPod,
      demandGCHandleEvent (PodEvent.update oldPod newPod) =
          [{ ns := newPod.ns, name := newPod.name, tag := "DemandGC" }] ∨
      demandGCHandleEvent (PodEvent.update oldPod newPod) = []) ∧
    (∀ oldPod newPod,
      demandGCHandleEvent (PodEvent.update oldPod newPod) =
          [{ ns := newPod.ns, name := newPod.name, tag := "DemandGC" }] ↔
        IsSparkSchedulerPod oldPod = true ∧ IsSparkSchedulerPod newPod = true ∧
        isPodScheduled oldPod = false ∧ isPodScheduled newPod = true) := by
  refine ⟨fun p => rfl, fun p => rfl, ?_, ?_⟩
  · intro oldPod newPod
    cases hmn : IsSparkSchedulerPod newPod <;>
      cases hmo : IsSparkSchedulerPod oldPod <;>
      cases hso : isPodScheduled oldPod <;>
      cases hsn : isPodScheduled newPod <;>
      simp [demandGCHandleEvent, OnPodScheduled, DeleteDemandIfExists,
        hmn, hmo, hso, hsn]
  · intro oldPod newPod
    cases hmn : IsSparkSchedulerPod newPod <;>
      cases hmo : IsSparkSchedulerPod oldPod <;>
      cases hso : isPodScheduled oldPod <;>
      cases hsn : isPodScheduled newPod <;>
      simp [demandGCHandleEvent, OnPodScheduled, DeleteDemandIfExists,
        hmn, hmo, hso, hsn]

/-- C5 witness: a concrete qualifying update — managed pod, node assignment
newly present — issues exactly the one delete call. -/
theorem demandGC_deletes_iff_newly_scheduled_witness :
    demandGCHandleEvent (PodEvent.update
      { ns := "ns1", name := "pod1", nodeName := "", managed := true }
      { ns := "ns1", name := "pod1", nodeName := "node1", managed := true }) =
      [{ ns := "ns1", name := "pod1", tag := "DemandGC" }] :=
  (demandGC_deletes_iff_newly_scheduled.2.2.2 _ _).2
    ⟨rfl, rfl, by decide, by decide⟩

/-- C6: if the CRD is reported ready but every synchronization attempt of
the tick fails, the watcher does not become ready: the check returns false
after the full `informerSyncRetryCount` attempts with the state — informer
field and ready channel alike — unchanged, and the polling loop continues
instead of `Run` returning. -/
theorem sync_exhaustion_not_ready (s : LDIState) (env : TickEnv)
    (hc : env.crdCheck = Except.ok true)
    (hs : ∀ i, env.syncOk i = false) :
    checkDemandCRDExists s env =
      { ready := false, state := s, syncAttempts := informerSyncRetryCount } ∧
    (∀ rest, runSteps s (RunEvent.tick env :: rest) = runSteps s rest) := by
  have hf : firstSuccessIdx env.syncOk informerSyncRetryCount = none :=
    firstSuccessIdx_none env.syncOk informerSyncRetryCount hs
  have hr : retrySucceeds env.syncOk informerSyncRetryCount = false := by
    simp [retrySucceeds, hf]
  have hcheck : checkDemandCRDExists s env =
      { ready := false, state := s, syncAttempts := informerSyncRetryCount } := by
    simp [checkDemandCRDExists, hc, initializeInformer, hr,
      retryAttemptsMade, hf]
  refine ⟨hcheck, fun rest => ?_⟩
  simp [runSteps, hcheck]

/-- C6 witness: the concrete ready-but-never-syncing tick leaves the
initial state untouched after 5 attempts. -/
theorem sync_exhaustion_not_ready_witness :
    checkDemandCRDExists NewLazyDemandInformer envSyncNever =
      { ready := false, state := NewLazyDemandInformer,
        syncAttempts := informerSyncRetryCount } :=
  (sync_exhaustion_not_ready NewLazyDemandInformer envSyncNever rfl
    (fun _ => rfl)).1

/-- C7: a tick whose discovery query errors returns false with zero
synchronization attempts and no state change; the loop retries with the
next event; and no error — this one included — is ever surfaced to the
caller of `Run`. -/
theorem discovery_error_transient (s : LDIState) (env : TickEnv)
    (h : env.crdCheck = Except.error ()) :
    checkDemandCRDExists s env =
      { ready := false, state := s, syncAttempts := 0 } ∧
    (∀ rest, runSteps s (RunEvent.tick env :: rest) = runSteps s rest) ∧
    (∀ evs ret s', runSteps s evs = some (ret, s') → ret = none) := by
  have hcheck : checkDemandCRDExists s env =
      { ready := false, state := s, syncAttempts := 0 } := by
    simp [checkDemandCRDExists, h]
  exact ⟨hcheck, fun rest => by simp [runSteps, hcheck],
    fun evs ret s' hrun => runSteps_ret_none evs s ret s' hrun⟩

/-- C7 witness: the concrete discovery-error tick changes nothing. -/
theorem discovery_error_transient_witness :
    checkDemandCRDExists NewLazyDemandInformer envDiscErr =
      { ready := false, state := NewLazyDemandInformer, syncAttempts := 0 } :=
  (discovery_error_transient NewLazyDemandInformer envDiscErr rfl).1

/-- C8: polling runs on the fixed 60-second ticker period; a tick on which
discovery reports the CRD absent without error performs no synchronization
attempt and leaves the state unchanged, the loop merely waiting for the
next event; and the done signal is honoured at the head of every loop
iteration, not only between ticks. -/
theorem poll_absent_noop_cancel_each_iteration (s : LDIState) (env : TickEnv)
    (h : env.crdCheck = Except.ok false) :
    tickIntervalMillis = 60000 ∧
    checkDemandCRDExists s env =
      { ready := false, state := s, syncAttempts := 0 } ∧
    (∀ rest, runSteps s (RunEvent.tick env :: rest) = runSteps s rest) ∧
    (∀ s2 evs, runSteps s2 (RunEvent.done :: evs) = some (none, s2)) := by
  have hcheck : checkDemandCRDExists s env =
      { ready := false, state := s, syncAttempts := 0 } := by
    simp [checkDemandCRDExists, h]
  exact ⟨rfl, hcheck, fun rest => by simp [runSteps, hcheck],
    fun s2 evs => rfl⟩

/-- C8 witness: the concrete absent tick changes nothing from the initial
state. -/
theorem poll_absent_noop_cancel_each_iteration_witness :
    checkDemandCRDExists NewLazyDemandInformer envAbsent =
      { ready := false, state := NewLazyDemandInformer, syncAttempts := 0 } :=
  (poll_absent_noop_cancel_each_iteration NewLazyDemandInformer envAbsent
    rfl).2.1

/-- C9: despite its error-valued signature, every terminating execution of
`Run` — through cancellation or through a successful check — returns the
nil error. -/
theorem run_always_returns_nil (s : LDIState) (evs : List RunEvent)
    (ret : Option Unit) (s' : LDIState)
    (h : runSteps s evs = some (ret, s')) : ret = none :=
  runSteps_ret_none evs s ret s' h

/-- C9 witness: a concrete cancelled run returns the nil error. -/
theorem run_always_returns_nil_witness : (none : Option Unit) = none :=
  run_always_returns_nil NewLazyDemandInformer [RunEvent.done] none
    NewLazyDemandInformer rfl

/-- C10: the ticker never fires immediately (Go `time.NewTicker` first
fires one full period after creation), so if the context is cancelled
before one tick interval elapses, `Run` returns nil having made zero calls
to `checkDemandCRDExists`, the state untouched. -/
theorem no_check_before_first_interval (envs : Nat → TickEnv) (cancelAt : Nat)
    (h : cancelAt < tickIntervalMillis) :
    checksMade NewLazyDemandInformer (eventsUpToCancel envs cancelAt) = 0 ∧
    runSteps NewLazyDemandInformer (eventsUpToCancel envs cancelAt) =
      some (none, NewLazyDemandInformer) := by
  have ht : ticksFiredBy cancelAt = 0 := Nat.div_eq_of_lt h
  constructor <;> simp [eventsUpToCancel, ht, checksMade, runSteps]

/-- C10 witness: cancellation at 59999 ms, one millisecond before the first
tick, yields zero discovery checks. -/
theorem no_check_before_first_interval_witness :
    checksMade NewLazyDemandInformer
      (eventsUpToCancel (fun _ => envSyncAlways) 59999) = 0 :=
  (no_check_before_first_interval (fun _ => envSyncAlways) 59999
    (by decide)).1

end SparkScheduler
